import Mathlib

/-!
Verification of the viberate-platform task-assignment and payment front end.

The TypeScript/JavaScript sources are shallowly embedded:
* JS numbers are modelled as exact rationals; where the code performs
  floating-point arithmetic (`parseFloat`, `+=` on amounts) the binary64
  round-to-nearest-even semantics is made explicit via `roundF64`.
* Where the code inspects `Number.prototype.toString` (the decimal-places
  check of `validatePaymentAmount`) the number is taken together with its
  decimal rendering: `jsFracDigits` returns the number of digits printed
  after the decimal point, including JavaScript's switch to exponential
  notation for magnitudes below `1e-6`.
* Fallible JS calls (`await api...`) are parameters of type `Except`.
* Handlers are embedded as pure functions returning the list of observable
  actions (API calls, alerts, error banners) they perform.
-/

namespace Viberate

/-! ## JS numeric model

Rational arithmetic is expressed through `Rat.divInt` on numerators and
denominators, which (unlike the generic field operations on `ℚ`) reduces
inside the Lean kernel, so every concrete run of the embedded code can be
checked by `decide`.  Bridge lemmas identify these operations with the
usual ones. -/

/-- Addition on `ℚ`, in kernel-reducible form. -/
def qadd (a b : ℚ) : ℚ :=
  Rat.divInt (a.num * (b.den : ℤ) + b.num * (a.den : ℤ)) ((a.den : ℤ) * (b.den : ℤ))

/-- Multiplication on `ℚ`, in kernel-reducible form. -/
def qmul (a b : ℚ) : ℚ := Rat.divInt (a.num * b.num) ((a.den : ℤ) * (b.den : ℤ))

/-- Subtraction on `ℚ`, in kernel-reducible form. -/
def qsub (a b : ℚ) : ℚ := qadd a (-b)

/-- Absolute value on `ℚ`, in kernel-reducible form. -/
def qabs (a : ℚ) : ℚ := if a < 0 then -a else a

/-- Powers of two with integer exponent, as rationals. -/
def pow2Q (e : ℤ) : ℚ :=
  if 0 ≤ e then ((2 ^ e.toNat : ℕ) : ℚ) else Rat.divInt 1 ((2 ^ (-e).toNat : ℕ) : ℤ)

/-- Fuel-driven base-2 logarithm on naturals (the fuel makes it reduce
inside the kernel). -/
def log2F : ℕ → ℕ → ℕ
  | 0, _ => 0
  | fuel + 1, n => if 2 ≤ n then log2F fuel (n / 2) + 1 else 0

/-- `⌊log₂ n⌋` for `1 ≤ n`. -/
def natLog2 (n : ℕ) : ℕ := log2F n n

/-- Fuel-driven count of decimal digits. -/
def digitCountF : ℕ → ℕ → ℕ
  | 0, _ => 0
  | fuel + 1, n => if n = 0 then 0 else digitCountF fuel (n / 10) + 1

/-- Number of decimal digits of a positive natural. -/
def digitCount (n : ℕ) : ℕ := digitCountF n n

/-- Floor of the base-2 logarithm of a positive rational (valid for
arguments greater than `2 ^ (-200)`). -/
def floorLog2 (q : ℚ) : ℤ :=
  (natLog2 (Rat.floor (qmul q ((2 ^ 200 : ℕ) : ℚ))).toNat : ℤ) - 200

/-- Round a rational to the nearest IEEE-754 binary64 value
(round-to-nearest, ties-to-even), returned as the exact rational value of
that double.  Valid on the normal range, which covers every amount
appearing in this code base. -/
def roundF64 (q : ℚ) : ℚ :=
  if q = 0 then 0
  else
    let sgn : ℚ := if q < 0 then -1 else 1
    let x : ℚ := qabs q
    let e : ℤ := floorLog2 x - 52
    let m : ℚ := qmul x (pow2Q (-e))
    let fl : ℤ := Rat.floor m
    let fr : ℚ := qsub m ((fl : ℤ) : ℚ)
    let m2 : ℤ :=
      if fr < Rat.divInt 1 2 then fl
      else if Rat.divInt 1 2 < fr then fl + 1
      else if fl % 2 = 0 then fl else fl + 1
    qmul (qmul sgn ((m2 : ℤ) : ℚ)) (pow2Q e)

/-- JS `+` on doubles: exact rational addition followed by binary64
rounding. -/
def jsAdd (a b : ℚ) : ℚ := roundF64 (qadd a b)

/-- JS numbers including `NaN`: `none` is `NaN`, `some q` a (finite)
numeric value. -/
abbrev JsNum := Option ℚ

/-- `+` on JS numbers: any operation involving `NaN` yields `NaN`. -/
def nanAdd (a b : JsNum) : JsNum :=
  match a, b with
  | some x, some y => some (jsAdd x y)
  | _, _ => none

/-- Multiplicity of the prime `p` in `n`, computed with explicit fuel. -/
def pMult (p : ℕ) : ℕ → ℕ → ℕ
  | 0, _ => 0
  | fuel + 1, n =>
    if 2 ≤ p ∧ n ≠ 0 ∧ n % p = 0 then pMult p fuel (n / p) + 1 else 0

/-- Number of digits after the decimal point in the plain decimal
rendering of `q` (for rationals with a finite decimal expansion this is
the number of fractional digits of the shortest decimal form). -/
def decPlaces (q : ℚ) : ℕ :=
  max (pMult 2 q.den q.den) (pMult 5 q.den q.den)

/-- Least `k` with `1 ≤ x * 10 ^ k`, by fuel. -/
def expScale : ℕ → ℚ → ℕ
  | 0, _ => 0
  | fuel + 1, x => if 1 ≤ x then 0 else expScale fuel (qmul x 10) + 1

/-- Digits printed after the `.` by `Number.prototype.toString` when the
value is rendered in exponential notation (magnitude below `1e-6`): the
fractional digits of the significand, if any, plus the `e-k` suffix that
follows them. -/
def expFracDigits (q : ℚ) : ℕ :=
  let k := expScale 400 (qabs q)
  let s := qmul (qabs q) ((10 ^ k : ℕ) : ℚ)
  if decPlaces s = 0 then 0 else decPlaces s + 2 + digitCount k

/-- Number of characters after the `.` in `Number.prototype.toString` of
a finite JS number: plain decimal rendering for zero and for magnitudes
of at least `1e-6`, exponential rendering below that.  (The exponential
rendering for magnitudes of `1e21` and above is irrelevant here: such
amounts are rejected by the `> 10000` check before `toString` is
reached.) -/
def jsFracDigits (q : ℚ) : ℕ :=
  if 0 < qabs q ∧ qabs q < Rat.divInt 1 1000000 then expFracDigits q else decPlaces q

/-! ## JS string helpers -/

/-- Length of a JS string (number of characters). -/
def jsLength (s : String) : ℕ := s.data.length

/-- Strip whitespace from both ends of a character list. -/
def listTrim (l : List Char) : List Char :=
  ((l.dropWhile Char.isWhitespace).reverse.dropWhile Char.isWhitespace).reverse

/-- `String.prototype.trim`. -/
def jsTrim (s : String) : String := String.mk (listTrim s.data)

/-- `String.prototype.startsWith`. -/
def jsStartsWith (s pre : String) : Bool := pre.data.isPrefixOf s.data

/-- Boolean substring test on character lists. -/
def listSubB (xs ys : List Char) : Bool :=
  (List.range (ys.length + 1)).any (fun i => xs.isPrefixOf (ys.drop i))

/-- Whether the string `needle` occurs inside `msg`. -/
def mentions (msg needle : String) : Bool := listSubB needle.data msg.data

/-- Digit character value. -/
def digitVal (c : Char) : ℕ := c.toNat - '0'.toNat

/-- Natural number denoted by a list of decimal digit characters. -/
def natOfDigits (l : List Char) : ℕ :=
  l.foldl (fun acc c => acc * 10 + digitVal c) 0

/-- JS `parseFloat` restricted to plain decimal numerals
(`[+-]? digits [. digits]` prefixes, which is the only shape
`price_per_task` strings take): `none` is `NaN`.  The decimal value is
rounded to binary64, as `parseFloat` produces a double. -/
def jsParseFloat (s : String) : JsNum :=
  let l := listTrim s.data
  let sl : ℚ × List Char :=
    match l with
    | '-' :: r => (-1, r)
    | '+' :: r => (1, r)
    | _ => (1, l)
  let ip := sl.2.takeWhile Char.isDigit
  let r1 := sl.2.dropWhile Char.isDigit
  let fp : List Char :=
    match r1 with
    | '.' :: r => r.takeWhile Char.isDigit
    | _ => []
  if ip.isEmpty ∧ fp.isEmpty then none
  else
    some (roundF64 (qmul sl.1 (qadd ((natOfDigits ip : ℕ) : ℚ)
      (Rat.divInt (natOfDigits fp : ℕ) ((10 ^ fp.length : ℕ) : ℤ)))))

/-! ## Wallet-address validation

`ethAddrMatch` is the regular expression `^0x[a-fA-F0-9]{40}$` shared by
both copies of `validateWalletAddress`. -/

/-- The character class `[a-fA-F0-9]`. -/
def isHexDigit (c : Char) : Bool :=
  ('0' ≤ c && c ≤ '9') || ('a' ≤ c && c ≤ 'f') || ('A' ≤ c && c ≤ 'F')

/-- The regular expression test `/^0x[a-fA-F0-9]{40}$/.test s`. -/
def ethAddrMatch (s : String) : Bool :=
  match s.data with
  | '0' :: 'x' :: rest => rest.length == 40 && rest.all isHexDigit
  | _ => false

/-! The web dashboard validation utilities (`frontend/src/utils/validation.ts`). -/

namespace WebValidation

/-- `validateWalletAddress` of the web dashboard: empty check, then the
`^0x[a-fA-F0-9]{40}$` format check.  The EIP-55 checksum step is only a
comment in the source ("In production, use a library like ethers.js"). -/
def validateWalletAddress (address : String) : Option String :=
  if address = "" then some "Wallet address is required"
  else if ethAddrMatch address = false then
    some "Invalid wallet address format. Must be 0x followed by 40 hexadecimal characters"
  else none

/-- `validatePaymentAmount`, on the numeric value of its argument
(`none` is `NaN`; a string argument goes through `parseFloat` first and
is covered by composing with `jsParseFloat`).  The decimal-places check
reads `numAmount.toString().split(\x27.\x27)[1]?.length`, embedded by
`jsFracDigits`. -/
def validatePaymentAmount (amount : JsNum) : Option String :=
  match amount with
  | none => some "Payment amount must be a valid number"
  | some q =>
    if q < 0 then some "Payment amount cannot be negative"
    else if q = 0 then some "Payment amount must be greater than zero"
    else if 10000 < q then some "Payment amount cannot exceed $10,000 USDC"
    else if 2 < jsFracDigits q then some "Payment amount can have at most 2 decimal places"
    else none

end WebValidation

/-! The VS Code extension validation utilities
(`cursor-extension/src/utils/validation.ts`). -/

namespace ExtValidation

/-- `validateWalletAddress` of the VS Code extension: empty, `0x`, length
and hex checks.  The mixed-case branch in the source detects a potential
checksum address but performs no check ("for now just accept it", with a
TODO for real EIP-55 validation), so it is behaviourally a no-op. -/
def validateWalletAddress (address : String) : Option String :=
  if address = "" then some "Wallet address is required"
  else if jsStartsWith address "0x" = false then some "Wallet address must start with 0x"
  else if jsLength address ≠ 42 then
    some "Wallet address must be 42 characters (0x followed by 40 hex characters)"
  else if ethAddrMatch address = false then
    some "Wallet address contains invalid characters. Only 0-9 and a-f are allowed"
  else
    -- const hasUpperCase = /[A-F]/..., hasLowerCase = /[a-f]/...; the
    -- `if (hasUpperCase && hasLowerCase)` body is empty.
    none

/-- The source's mixed-case detection: `/[A-F]/` and `/[a-f]/` tested on
`address.substring(2)` (the branch guarded by their conjunction has an
empty body). -/
def mixedCaseHex (s : String) : Bool :=
  (s.data.drop 2).any (fun c => 'A' ≤ c && c ≤ 'F') &&
    (s.data.drop 2).any (fun c => 'a' ≤ c && c ≤ 'f')

/-- Character-wise lowercasing, used to express that two case renderings
spell the same underlying address. -/
def lowercaseHex (s : String) : String := String.mk (s.data.map Char.toLower)

end ExtValidation

/-! ## Web dashboard approve handlers (`src/frontend/src/App.tsx`) -/

namespace Frontend

/-- The error object of a failed axios call: `err.response?.data?.error`. -/
structure ApiErr where
  responseDataError : Option String
  deriving DecidableEq, Repr

/-- Observable steps a dashboard handler performs. -/
inductive FrontendAct where
  | validateAmt (amount : JsNum)
  | approveCall (assignmentId : ℕ) (amount : JsNum)
  | setLoading (b : Bool)
  | setErrorMsg (s : String)
  | reloadAssignments
  | alertMsg (s : String)
  | confirmTotal (count : ℕ) (total : JsNum)
  deriving DecidableEq, Repr

/-- `handleApproveAssignment(assignmentId, paymentAmount)`: validate the
amount, bail out with the validation error, otherwise post to the
approve endpoint and surface `err.response?.data?.error` (or the generic
message) on failure.  `api` is the outcome of `assignmentsAPI.approve`. -/
def handleApproveAssignment (assignmentId : ℕ) (paymentAmount : JsNum)
    (api : Except ApiErr Unit) : List FrontendAct :=
  FrontendAct.validateAmt paymentAmount ::
    match WebValidation.validatePaymentAmount paymentAmount with
    | some e => [FrontendAct.setErrorMsg e]
    | none =>
      [FrontendAct.setLoading true, FrontendAct.approveCall assignmentId paymentAmount] ++
        (match api with
         | Except.ok _ => [FrontendAct.reloadAssignments, FrontendAct.setErrorMsg ""]
         | Except.error err =>
           [FrontendAct.setErrorMsg
             (match err.responseDataError with
              | some m => m
              | none => "Failed to approve assignment")]) ++
        [FrontendAct.setLoading false]

/-- The task object reachable from an assignment
(`assignment.task_data || assignment.task`); only its `project` id
matters here. -/
structure TaskRef where
  project : Option ℕ
  deriving DecidableEq, Repr

structure Assignment where
  id : ℕ
  task_data : Option TaskRef
  task : Option TaskRef
  deriving DecidableEq, Repr

structure Project where
  id : ℕ
  price_per_task : Option String
  deriving DecidableEq, Repr

/-- `assignment.task_data || assignment.task`. -/
def taskOf (a : Assignment) : Option TaskRef :=
  match a.task_data with
  | some t => some t
  | none => a.task

/-- `projects.find(p => p.id === task?.project)`. -/
def projectOf (projects : List Project) (t : Option TaskRef) : Option Project :=
  projects.find? (fun p => (t.bind TaskRef.project) == some p.id)

/-- `project?.price_per_task ? parseFloat(project.price_per_task) : 5.00`
(the empty string is falsy). -/
def defaultPriceFor (projects : List Project) (a : Assignment) : JsNum :=
  match projectOf projects (taskOf a) with
  | some p =>
    match p.price_per_task with
    | some s => if s ≠ "" then jsParseFloat s else some 5
    | none => some 5
  | none => some 5

/-- Payment amount used by the per-assignment loop of
`handleBatchApprove`; when the id is not among `pendingAssignments` the
optional chains yield `undefined` and the `5.00` fallback applies. -/
def batchPayment (pending : List Assignment) (projects : List Project) (aid : ℕ) : JsNum :=
  match pending.find? (fun a => a.id == aid) with
  | some a => defaultPriceFor projects a
  | none => some 5

/-- The `totalPayment` accumulation of `handleBatchApprove`: a `number`
(binary64) running sum, skipping ids with no matching assignment. -/
def batchTotal (selected : List ℕ) (pending : List Assignment)
    (projects : List Project) : JsNum :=
  selected.foldl
    (fun tot aid =>
      match pending.find? (fun a => a.id == aid) with
      | some a => nanAdd tot (defaultPriceFor projects a)
      | none => tot)
    (some 0)

/-- Result of one run of `handleBatchApprove`: its observable actions and
the final `successCount` / `errorCount` counters. -/
structure BatchRun where
  actions : List FrontendAct
  successCount : ℕ
  errorCount : ℕ
  deriving DecidableEq, Repr

def exceptOkB : Except ApiErr Unit → Bool
  | Except.ok _ => true
  | Except.error _ => false

/-- Whether an action is a call of the approve endpoint. -/
def isApproveCallB : FrontendAct → Bool
  | FrontendAct.approveCall _ _ => true
  | _ => false

/-- Whether an action is an invocation of `validatePaymentAmount`. -/
def isValidateB : FrontendAct → Bool
  | FrontendAct.validateAmt _ => true
  | _ => false

/-- The payment-amount rule stated by the claim for batch approval: the
amount is the parsed `price_per_task` of the assignment's owning project
when that is known and non-empty, and the 5.00 USDC default otherwise. -/
def pricePerTaskRule (pending : List Assignment) (projects : List Project)
    (aid : ℕ) (amt : JsNum) : Prop :=
  (∃ a p s, pending.find? (fun x => x.id == aid) = some a ∧
      projectOf projects (taskOf a) = some p ∧
      p.price_per_task = some s ∧ s ≠ "" ∧ amt = jsParseFloat s) ∨
  (amt = some 5 ∧
    ¬ ∃ a p s, pending.find? (fun x => x.id == aid) = some a ∧
      projectOf projects (taskOf a) = some p ∧
      p.price_per_task = some s ∧ s ≠ "")

/-- `handleBatchApprove`: guard on empty selection, compute and confirm
the total, then approve each selected assignment with its project price
(5.00 fallback), counting successes and failures; failures are only
logged to the console, and the final alert reports the two counters. -/
def handleBatchApprove (selected : List ℕ) (pending : List Assignment)
    (projects : List Project) (confirmed : Bool)
    (approveApi : ℕ → JsNum → Except ApiErr Unit) : BatchRun :=
  if selected.length = 0 then
    ⟨[FrontendAct.alertMsg "Please select at least one assignment to approve."], 0, 0⟩
  else
    let total := batchTotal selected pending projects
    if confirmed = false then ⟨[FrontendAct.confirmTotal selected.length total], 0, 0⟩
    else
      let results := selected.map
        (fun aid => (aid, batchPayment pending projects aid,
          approveApi aid (batchPayment pending projects aid)))
      let s := (results.filter (fun r => exceptOkB r.2.2)).length
      let e := (results.filter (fun r => !(exceptOkB r.2.2))).length
      ⟨[FrontendAct.confirmTotal selected.length total, FrontendAct.setLoading true] ++
          results.map (fun r => FrontendAct.approveCall r.1 r.2.1) ++
          [FrontendAct.setLoading false, FrontendAct.reloadAssignments,
            FrontendAct.alertMsg
              (if e = 0 then "Successfully approved " ++ toString s ++ " assignment(s)!"
               else "Approved " ++ toString s ++ " assignment(s). Failed: " ++ toString e)],
        s, e⟩

/-- Settlement transaction status, per the spec's data model. -/
inductive SettlementStatus where
  | pendingTx
  | processing
  | completed
  | failed
  | refunded
  deriving DecidableEq, Repr

/-- Settlement transaction record (status and error detail are the
fields the claims touch). -/
structure SettlementTxn where
  status : SettlementStatus
  errorDetail : Option String
  deriving DecidableEq, Repr

/-- Modelled from the spec: the backend `approve` endpoint (the Django
backend is not under `src/`).  Per §4.2/§7 of the spec it reports success
exactly when the settlement transaction for the assignment reached
`completed`, and otherwise responds with an error carrying the settlement
failure reason. -/
def approveViaSettlement (settle : ℕ → SettlementTxn) (aid : ℕ) (_amt : JsNum) :
    Except ApiErr Unit :=
  if (settle aid).status = SettlementStatus.completed then Except.ok ()
  else Except.error ⟨(settle aid).errorDetail⟩

/-- The strings a batch run shows to the researcher (alerts and the error
banner); console output is not included. -/
def surfacedMessages (acts : List FrontendAct) : List String :=
  acts.foldr
    (fun a acc =>
      match a with
      | FrontendAct.alertMsg s => s :: acc
      | FrontendAct.setErrorMsg s => s :: acc
      | _ => acc)
    []

end Frontend

/-! ## Extension task panel and its webview script (`TaskPanelProvider`) -/

namespace TaskPanel

/-- A failed claim call: `error.response?.status` and `error.message`. -/
structure ClaimErr where
  responseStatus : Option ℕ
  message : String
  deriving DecidableEq, Repr

/-- Messages the extension shows (`showInformationMessage` /
`showErrorMessage`). -/
inductive UiMsg where
  | infoMsg (s : String)
  | errorMsg (s : String)
  deriving DecidableEq, Repr

/-- The catch-branch of `handleClaimTask`, mapping an error to the shown
message. -/
def claimErrorMessage (e : ClaimErr) : String :=
  if e.responseStatus == some 400 then
    "This task is no longer available. Please refresh and try another task."
  else if e.responseStatus == some 403 then
    "You do not have permission to claim this task."
  else if e.responseStatus == some 404 then
    "Task not found. It may have been claimed by another user."
  else "Failed to claim task: " ++ e.message

/-- `handleClaimTask(taskId)`.  `claimResult` is the outcome of
`taskManager.claimTask`: `Except.ok (some id)` a response with an `id`
field (falsy when `0`), `Except.ok none` a response without one; either
falsy case throws `new Error(\x27Assignment was not created properly\x27)`,
which carries no HTTP response and falls to the generic catch branch. -/
def handleClaimTask (claimResult : Except ClaimErr (Option ℕ)) : List UiMsg :=
  match claimResult with
  | Except.ok idOpt =>
    match idOpt with
    | some id =>
      if id ≠ 0 then
        [UiMsg.infoMsg "✅ Task claimed! Look for the green \"My Assignments\" section above. You can cancel anytime."]
      else [UiMsg.errorMsg (claimErrorMessage ⟨none, "Assignment was not created properly"⟩)]
    | none => [UiMsg.errorMsg (claimErrorMessage ⟨none, "Assignment was not created properly"⟩)]
  | Except.error e => [UiMsg.errorMsg (claimErrorMessage e)]

end TaskPanel

namespace Webview

/-! ### Claim double-submit guard (`let isClaimingTask = false`) -/

/-- A `vscode.postMessage` with a claim payload. -/
inductive ClaimMsg where
  | claimTaskMsg (taskId : ℕ)
  | claimFromProjectMsg (projectId : ℕ)
  deriving DecidableEq, Repr

/-- The script-global guard flag. -/
structure GuardState where
  isClaimingTask : Bool
  deriving DecidableEq, Repr

/-- `claimTask(taskId)`: return immediately while the guard flag is set,
otherwise set it and post the claim message (the button disabling is
cosmetic and not modelled). -/
def claimTask (s : GuardState) (taskId : ℕ) : GuardState × List ClaimMsg :=
  if s.isClaimingTask then (s, [])
  else (⟨true⟩, [ClaimMsg.claimTaskMsg taskId])

/-- `claimTaskFromProject(projectId)`, same guard. -/
def claimTaskFromProject (s : GuardState) (projectId : ℕ) : GuardState × List ClaimMsg :=
  if s.isClaimingTask then (s, [])
  else (⟨true⟩, [ClaimMsg.claimFromProjectMsg projectId])

/-- The `setTimeout(() => \x7b isClaimingTask = false; \x7d, 3000)`
callback. -/
def guardTimeout (_s : GuardState) : GuardState := ⟨false⟩

/-- Events touching the guard: an invocation of either claim function, or
the 3000 ms timer firing. -/
inductive GuardEvent where
  | invokeClaim (taskId : ℕ)
  | invokeClaimFromProject (projectId : ℕ)
  | timerFire
  deriving DecidableEq, Repr

def guardStep (s : GuardState) : GuardEvent → GuardState × List ClaimMsg
  | GuardEvent.invokeClaim t => claimTask s t
  | GuardEvent.invokeClaimFromProject p => claimTaskFromProject s p
  | GuardEvent.timerFire => (guardTimeout s, [])

/-- Run a sequence of guard events, collecting every posted claim
message. -/
def guardRun (s : GuardState) : List GuardEvent → GuardState × List ClaimMsg
  | [] => (s, [])
  | e :: es =>
    let r := guardStep s e
    let rest := guardRun r.1 es
    (rest.1, r.2 ++ rest.2)

/-! ### Generic annotation submission -/

/-- The `result` value posted with a `submit-assignment` message: either
the successfully `JSON.parse`d text, or the fallback object
`\x7b annotation: annotationText \x7d`. -/
inductive SubmitPayload where
  | parsedJson (raw : String)
  | wrappedText (text : String)
  deriving DecidableEq, Repr

/-- Observable actions of the submission script. -/
inductive WvAct where
  | showErrorDiv (msg : String)
  | postSubmit (assignmentId : ℕ) (result : SubmitPayload)
  deriving DecidableEq, Repr

/-- `submitGenericAnnotation(assignmentId)`.  `textareaValue` is the
content of the textarea (`none` when the element is missing), `jsonOk`
abstracts whether `JSON.parse` succeeds on a given string. -/
def submitGenericAnnotationFn (jsonOk : String → Bool) (textareaValue : Option String)
    (assignmentId : ℕ) : List WvAct :=
  let annotationText :=
    match textareaValue with
    | some v => jsTrim v
    | none => ""
  if annotationText = "" then [WvAct.showErrorDiv "Please provide an annotation."]
  else
    let result :=
      if jsonOk annotationText then SubmitPayload.parsedJson annotationText
      else SubmitPayload.wrappedText annotationText
    [WvAct.postSubmit assignmentId result]

/-- Assignment state as affected by a submission attempt: the extension
transitions an assignment to `submitted` only in reaction to a posted
`submit-assignment` message (`handleSubmitAssignment`), so an attempt
that posts nothing leaves the status untouched. -/
def statusAfterAttempt (status : String) (acts : List WvAct) : String :=
  acts.foldl
    (fun st a =>
      match a with
      | WvAct.postSubmit _ _ => "submitted"
      | _ => st)
    status

/-! ### Assignment card rendering -/

structure WvAssignment where
  id : ℕ
  status : String
  feedback : Option String
  deriving DecidableEq, Repr

/-- The three control strings `renderAssignmentCard` computes before
assembling the card html; each starts out as the empty string and is
filled in depending on the status. -/
structure CardControls where
  cancelButton : String
  actionButton : String
  annotationFormHtml : String
  deriving DecidableEq, Repr

def cancellableStatuses : List String := ["assigned", "accepted", "in_progress"]

/-- `renderAssignmentCard(assignment)`, restricted to the three control
variables (html attribute quoting and `escapeHtml` are immaterial and
elided).  `renderForm` abstracts `renderAnnotationForm`, which always
produces a non-empty form (one of three non-empty templates). -/
def renderAssignmentCard (renderForm : WvAssignment → String) (a : WvAssignment) :
    CardControls :=
  let status := a.status
  let cancelButton :=
    if cancellableStatuses.contains status then
      "<button data-action=cancel-assignment data-assignment-id=" ++ toString a.id ++
        " class=secondary>Cancel Assignment</button>"
    else ""
  let isInProgress := status == "assigned" || status == "accepted" || status == "in_progress"
  let annotationFormHtml := if isInProgress then renderForm a else ""
  let actionButton :=
    if isInProgress then ""
    else if status == "submitted" then ""
    else if status == "approved" then ""
    else if status == "rejected" then
      "<p>❌ Rejected: " ++
        (match a.feedback with
         | some f => f
         | none => "No feedback provided") ++ "</p>"
    else ""
  ⟨cancelButton, actionButton, annotationFormHtml⟩

end Webview

/-! ## Extension auth manager (`cursor-extension/src/api/auth.ts`) -/

namespace ExtAuth

structure User where
  username : String
  user_type : String
  deriving DecidableEq, Repr

/-- The extension's credential storage (`StorageManager` keys
`authToken` and `user`). -/
structure StoredState where
  authToken : Option String
  user : Option User
  deriving DecidableEq, Repr

/-- A failed login HTTP call: `error.response?.data?.error`,
`error.response?.data?.detail`, `error.message`. -/
structure LoginErr where
  responseDataError : Option String
  responseDataDetail : Option String
  message : String
  deriving DecidableEq, Repr

/-- The catch-branch of `AuthManager.login`. -/
def loginErrorMessage (e : LoginErr) : String :=
  match e.responseDataError with
  | some m => m
  | none =>
    match e.responseDataDetail with
    | some d => d
    | none => e.message

/-- `AuthManager.login`: on a successful `/auth/login/` response, reject
non-annotators before any storage write (the thrown `Error` has no
`response` field, so the catch block rethrows it unchanged); otherwise
store the token and user and return the user. -/
def login (st : StoredState) (resp : Except LoginErr (String × User)) :
    Except String (StoredState × User) :=
  match resp with
  | Except.error e => Except.error (loginErrorMessage e)
  | Except.ok (token, user) =>
    if user.user_type ≠ "annotator" then
      Except.error "Only annotators can use this extension. Please use the web interface for researchers."
    else
      Except.ok ({ st with authToken := some token, user := some user }, user)

/-- Storage contents after a login attempt (a thrown login leaves the
storage untouched). -/
def storageAfterLogin (st : StoredState) (resp : Except LoginErr (String × User)) :
    StoredState :=
  match login st resp with
  | Except.ok r => r.1
  | Except.error _ => st

/-- `AuthManager.isAuthenticated`: `storage.has(\x27authToken\x27)`. -/
def isAuthenticated (st : StoredState) : Bool := st.authToken.isSome

end ExtAuth

/-! # Theorems

First the bridge lemmas identifying the kernel-reducible arithmetic with
the standard operations, then helper lemmas, then one theorem per claim. -/

theorem qadd_eq (a b : ℚ) : qadd a b = a + b := by
  have ha : (a.den : ℤ) ≠ 0 := Int.natCast_ne_zero.mpr a.den_nz
  have hb : (b.den : ℤ) ≠ 0 := Int.natCast_ne_zero.mpr b.den_nz
  rw [qadd, ← Rat.divInt_add_divInt _ _ ha hb, Rat.num_divInt_den, Rat.num_divInt_den]

theorem qmul_eq (a b : ℚ) : qmul a b = a * b := by
  rw [qmul, ← Rat.divInt_mul_divInt', Rat.num_divInt_den, Rat.num_divInt_den]

theorem qsub_eq (a b : ℚ) : qsub a b = a - b := by
  rw [qsub, qadd_eq, sub_eq_add_neg]

theorem qabs_eq (a : ℚ) : qabs a = |a| := by
  rw [qabs]
  by_cases h : a < 0
  · simp [abs_of_neg h, h]
  · simp [abs_of_nonneg (not_lt.mp h), h]

/-- Zero and every value of magnitude at least `1e-6` is rendered in
plain decimal, so the fraction-digit count is `decPlaces`. -/
theorem jsFracDigits_eq_decPlaces (q : ℚ)
    (h : q = 0 ∨ Rat.divInt 1 1000000 ≤ qabs q) : jsFracDigits q = decPlaces q := by
  unfold jsFracDigits
  rcases h with h | h
  · subst h
    simp [qabs]
  · simp [not_lt.mpr h]


/-! ## Helper lemmas -/

theorem guardStep_pending (s : Webview.GuardState) (hs : s.isClaimingTask = true)
    (e : Webview.GuardEvent) (he : e ≠ Webview.GuardEvent.timerFire) :
    Webview.guardStep s e = (s, []) := by
  cases e with
  | invokeClaim t => simp [Webview.guardStep, Webview.claimTask, hs]
  | invokeClaimFromProject p => simp [Webview.guardStep, Webview.claimTaskFromProject, hs]
  | timerFire => exact absurd rfl he

theorem guardRun_pending (evs : List Webview.GuardEvent) (s : Webview.GuardState)
    (hs : s.isClaimingTask = true) (hnt : Webview.GuardEvent.timerFire ∉ evs) :
    Webview.guardRun s evs = (s, []) := by
  induction evs with
  | nil => rfl
  | cons e es ih =>
    have he : e ≠ Webview.GuardEvent.timerFire := by
      intro h
      exact hnt (h ▸ List.mem_cons_self e es)
    have hnt2 : Webview.GuardEvent.timerFire ∉ es := fun h => hnt (List.mem_cons_of_mem _ h)
    simp [Webview.guardRun, guardStep_pending s hs e he, ih hnt2]

theorem ethAddrMatch_spec (s : String) (h : ethAddrMatch s = true) :
    s ≠ "" ∧ jsStartsWith s "0x" = true ∧ jsLength s = 42 := by
  unfold ethAddrMatch at h
  split at h
  · next rest heq =>
    have hlen : rest.length = 40 := by
      have h2 := (Bool.and_eq_true _ _).mp h
      simpa using h2.1
    refine ⟨?_, ?_, ?_⟩
    · intro hs
      rw [hs] at heq
      simp at heq
    · simp [jsStartsWith, heq, List.isPrefixOf]
    · simp [jsLength, heq, hlen]
  · exact absurd h (by simp)

theorem exceptOk_settlement (settle : ℕ → Frontend.SettlementTxn) (aid : ℕ) (amt : JsNum) :
    Frontend.exceptOkB (Frontend.approveViaSettlement settle aid amt) =
      ((settle aid).status == Frontend.SettlementStatus.completed) := by
  unfold Frontend.approveViaSettlement Frontend.exceptOkB
  by_cases h : (settle aid).status = Frontend.SettlementStatus.completed
  · simp [h]
  · simp [h]

/-- The amount computed by either loop of `handleBatchApprove` obeys the
price-per-task rule. -/
theorem batchPayment_rule (pending : List Frontend.Assignment)
    (projects : List Frontend.Project) (aid : ℕ) :
    Frontend.pricePerTaskRule pending projects aid
      (Frontend.batchPayment pending projects aid) := by
  unfold Frontend.pricePerTaskRule
  rcases Option.eq_none_or_eq_some (pending.find? (fun x => x.id == aid)) with hf | ⟨a, hf⟩
  · right
    constructor
    · simp [Frontend.batchPayment, hf]
    · rintro ⟨a2, p2, s2, ha2, -, -, -⟩
      rw [hf] at ha2
      exact Option.noConfusion ha2
  · rcases Option.eq_none_or_eq_some (Frontend.projectOf projects (Frontend.taskOf a))
        with hp | ⟨p, hp⟩
    · right
      constructor
      · simp [Frontend.batchPayment, hf, Frontend.defaultPriceFor, hp]
      · rintro ⟨a2, p2, s2, ha2, hp2, -, -⟩
        rw [hf] at ha2
        injection ha2 with ha2
        subst ha2
        rw [hp] at hp2
        exact Option.noConfusion hp2
    · rcases Option.eq_none_or_eq_some p.price_per_task with hpp | ⟨s, hpp⟩
      · right
        constructor
        · simp [Frontend.batchPayment, hf, Frontend.defaultPriceFor, hp, hpp]
        · rintro ⟨a2, p2, s2, ha2, hp2, hpp2, -⟩
          rw [hf] at ha2
          injection ha2 with ha2
          subst ha2
          rw [hp] at hp2
          injection hp2 with hp2
          subst hp2
          rw [hpp] at hpp2
          exact Option.noConfusion hpp2
      · by_cases hs : s = ""
        · right
          constructor
          · simp [Frontend.batchPayment, hf, Frontend.defaultPriceFor, hp, hpp, hs]
          · rintro ⟨a2, p2, s2, ha2, hp2, hpp2, hne⟩
            rw [hf] at ha2
            injection ha2 with ha2
            subst ha2
            rw [hp] at hp2
            injection hp2 with hp2
            subst hp2
            rw [hpp] at hpp2
            injection hpp2 with hpp2
            subst hpp2
            exact hne hs
        · left
          refine ⟨a, p, s, hf, hp, hpp, hs, ?_⟩
          simp [Frontend.batchPayment, hf, Frontend.defaultPriceFor, hp, hpp, hs]

theorem batchTotal_fold_aux (pending : List Frontend.Assignment)
    (projects : List Frontend.Project) :
    ∀ (selected : List ℕ),
      (∀ aid ∈ selected, (pending.find? (fun a => a.id == aid)).isSome = true) →
      ∀ init : JsNum,
        selected.foldl
          (fun tot aid =>
            match pending.find? (fun a => a.id == aid) with
            | some a => nanAdd tot (Frontend.defaultPriceFor projects a)
            | none => tot) init =
          selected.foldl
            (fun t aid => nanAdd t (Frontend.batchPayment pending projects aid)) init := by
  intro selected
  induction selected with
  | nil => intro _ init; rfl
  | cons aid rest ih =>
    intro hfound init
    have h1 := hfound aid (List.mem_cons_self aid rest)
    obtain ⟨a, ha⟩ := Option.isSome_iff_exists.mp h1
    simp only [List.foldl_cons, ha]
    rw [show Frontend.batchPayment pending projects aid = Frontend.defaultPriceFor projects a by
      simp [Frontend.batchPayment, ha]]
    exact ih (fun x hx => hfound x (List.mem_cons_of_mem _ hx)) _

/-- When every selected id has a matching pending assignment, the
`totalPayment` loop accumulates exactly the per-assignment amounts later
sent to the approve endpoint. -/
theorem batchTotal_eq_fold (selected : List ℕ) (pending : List Frontend.Assignment)
    (projects : List Frontend.Project)
    (hfound : ∀ aid ∈ selected, (pending.find? (fun a => a.id == aid)).isSome = true) :
    Frontend.batchTotal selected pending projects =
      selected.foldl (fun t aid => nanAdd t (Frontend.batchPayment pending projects aid))
        (some 0) :=
  batchTotal_fold_aux pending projects selected hfound (some 0)

/-! ## Claim theorems -/


/-- C1 (counterexample): the amount `1e-7` (`0.0000001`) has seven
decimal places, yet `validatePaymentAmount` accepts it (returns `null`):
JavaScript renders magnitudes below `1e-6` in exponential notation
(`"1e-7"`), so `toString().split('.')[1]` is `undefined` and the
decimal-places check sees `0`.  The claim's "non-null error exactly when
... has more than 2 decimal places" therefore fails at this input. -/
theorem c1_counterexample :
    WebValidation.validatePaymentAmount (some (Rat.divInt 1 10000000)) = none ∧
      2 < decPlaces (Rat.divInt 1 10000000) ∧ 0 < Rat.divInt 1 10000000 := by
  decide

/-- C1 (amended): for NaN, zero, and every amount of magnitude at least
`1e-6` (where JS uses plain decimal rendering), `validatePaymentAmount`
returns null exactly when the amount is a positive number, at most 10000,
with at most 2 decimal places — amounts in `(0, 1e-6)` can slip through
the decimal-places check; and `handleApproveAssignment` calls the approve
API exactly when `validatePaymentAmount` returns null. -/
theorem c1_amount_validation (a : JsNum) (id : ℕ) (api : Except Frontend.ApiErr Unit)
    (h : ∀ q ∈ a, q = 0 ∨ Rat.divInt 1 1000000 ≤ qabs q) :
    (WebValidation.validatePaymentAmount a = none ↔
        ∃ q, a = some q ∧ 0 < q ∧ q ≤ 10000 ∧ decPlaces q ≤ 2) ∧
      ((Frontend.handleApproveAssignment id a api).any Frontend.isApproveCallB = true ↔
        WebValidation.validatePaymentAmount a = none) := by
  constructor
  · cases a with
    | none => simp [WebValidation.validatePaymentAmount]
    | some q =>
      have hq := h q rfl
      simp only [WebValidation.validatePaymentAmount]
      rw [jsFracDigits_eq_decPlaces q hq]
      split_ifs with h1 h2 h3 h4
      · simp
        intro h0 hle
        exact absurd (lt_trans h1 h0) (lt_irrefl q)
      · simp
        intro h0 hle
        exact absurd (h2 ▸ h0) (lt_irrefl 0)
      · simp
        intro h0 hle
        exact absurd (lt_of_lt_of_le h3 hle) (lt_irrefl 10000)
      · simp
        intro h0 hle
        exact h4
      · simp
        exact ⟨lt_of_le_of_ne (not_lt.mp h1) (Ne.symm h2), not_lt.mp h3, not_lt.mp h4⟩
  · cases hv : WebValidation.validatePaymentAmount a with
    | some e => simp [Frontend.handleApproveAssignment, hv, Frontend.isApproveCallB]
    | none => cases api <;> simp [Frontend.handleApproveAssignment, hv, Frontend.isApproveCallB]

/-- C1 witness: the amended theorem applied at amount 5 with a successful
approve call. -/
theorem c1_amount_validation_witness :
    (WebValidation.validatePaymentAmount (some 5) = none ↔
        ∃ q, (some 5 : JsNum) = some q ∧ 0 < q ∧ q ≤ 10000 ∧ decPlaces q ≤ 2) ∧
      ((Frontend.handleApproveAssignment 9 (some 5) (Except.ok ())).any
          Frontend.isApproveCallB = true ↔
        WebValidation.validatePaymentAmount (some 5) = none) :=
  c1_amount_validation (some 5) 9 (Except.ok ()) (by
    intro q hq
    rw [Option.mem_def, Option.some_inj] at hq
    subst hq
    right
    decide)

/-- C2: when the trimmed textarea content is empty,
`submitGenericAnnotation` only shows the validation error, posts no
`submit-assignment` message, and the assignment status is unchanged by
the attempt. -/
theorem c2_empty_submission (jsonOk : String → Bool) (textareaValue : Option String)
    (aid : ℕ) (status : String)
    (h : (match textareaValue with | some v => jsTrim v | none => "") = "") :
    Webview.submitGenericAnnotationFn jsonOk textareaValue aid =
        [Webview.WvAct.showErrorDiv "Please provide an annotation."] ∧
      (∀ aid2 r, Webview.WvAct.postSubmit aid2 r ∉
        Webview.submitGenericAnnotationFn jsonOk textareaValue aid) ∧
      Webview.statusAfterAttempt status
        (Webview.submitGenericAnnotationFn jsonOk textareaValue aid) = status := by
  have he : Webview.submitGenericAnnotationFn jsonOk textareaValue aid =
      [Webview.WvAct.showErrorDiv "Please provide an annotation."] := by
    simp only [Webview.submitGenericAnnotationFn, h]
    simp
  refine ⟨he, ?_, ?_⟩
  · intro aid2 r hmem
    rw [he] at hmem
    simp at hmem
  · rw [he]
    simp [Webview.statusAfterAttempt]

/-- C2 witness: a whitespace-only textarea on an `in_progress`
assignment. -/
theorem c2_empty_submission_witness :
    Webview.submitGenericAnnotationFn (fun _ => false) (some "   ") 4 =
        [Webview.WvAct.showErrorDiv "Please provide an annotation."] ∧
      (∀ aid2 r, Webview.WvAct.postSubmit aid2 r ∉
        Webview.submitGenericAnnotationFn (fun _ => false) (some "   ") 4) ∧
      Webview.statusAfterAttempt "in_progress"
        (Webview.submitGenericAnnotationFn (fun _ => false) (some "   ") 4) = "in_progress" :=
  c2_empty_submission (fun _ => false) (some "   ") 4 "in_progress" (by decide)

/-- C3 (counterexample): a batch run over one assignment whose settlement
failed with reason "Insufficient escrow balance" surfaces only the alert
"Approved 0 assignment(s). Failed: 1"; no surfaced message mentions the
settlement reason (it is only logged to the console), refuting the
claim's "approval failures surface the underlying settlement reason" for
`handleBatchApprove`. -/
theorem c3_counterexample :
    Frontend.surfacedMessages
        (Frontend.handleBatchApprove [1] [⟨1, some ⟨some 7⟩, none⟩] [⟨7, some "5.00"⟩] true
          (Frontend.approveViaSettlement
            (fun _ => ⟨Frontend.SettlementStatus.failed, some "Insufficient escrow balance"⟩))).actions =
        ["Approved 0 assignment(s). Failed: 1"] ∧
      (∀ m ∈ Frontend.surfacedMessages
          (Frontend.handleBatchApprove [1] [⟨1, some ⟨some 7⟩, none⟩] [⟨7, some "5.00"⟩] true
            (Frontend.approveViaSettlement
              (fun _ => ⟨Frontend.SettlementStatus.failed, some "Insufficient escrow balance"⟩))).actions,
        mentions m "Insufficient escrow balance" = false) ∧
      (Frontend.handleBatchApprove [1] [⟨1, some ⟨some 7⟩, none⟩] [⟨7, some "5.00"⟩] true
          (Frontend.approveViaSettlement
            (fun _ => ⟨Frontend.SettlementStatus.failed, some "Insufficient escrow balance"⟩))).errorCount = 1 := by
  decide

/-- C3 (amended): against the spec-modelled approve endpoint (success iff
the settlement transaction reached `completed`), `handleBatchApprove`
counts an assignment as successfully approved exactly when its settlement
completed (and announces those counts); batch failures surface only as a
count, while the per-assignment `handleApproveAssignment` does surface
the backend's error reason. -/
theorem c3_success_only_on_settlement (selected : List ℕ)
    (pending : List Frontend.Assignment) (projects : List Frontend.Project)
    (settle : ℕ → Frontend.SettlementTxn) (hsel : selected ≠ []) :
    (Frontend.handleBatchApprove selected pending projects true
          (Frontend.approveViaSettlement settle)).successCount =
        (selected.filter
          (fun aid => (settle aid).status == Frontend.SettlementStatus.completed)).length ∧
      (Frontend.handleBatchApprove selected pending projects true
          (Frontend.approveViaSettlement settle)).errorCount =
        (selected.filter
          (fun aid => !((settle aid).status == Frontend.SettlementStatus.completed))).length ∧
      ∀ id amt err, WebValidation.validatePaymentAmount amt = none →
        Frontend.FrontendAct.setErrorMsg
            (match err.responseDataError with
             | some m => m
             | none => "Failed to approve assignment") ∈
          Frontend.handleApproveAssignment id amt (Except.error err) := by
  have hlen : ¬ selected.length = 0 := by
    simpa [List.length_eq_zero] using hsel
  refine ⟨?_, ?_, ?_⟩
  · simp only [Frontend.handleBatchApprove, hlen, if_false]
    simp only [if_neg (by simp : ¬ (true = false))]
    rw [List.filter_map, List.length_map]
    congr 1
    apply List.filter_congr
    intro aid _
    exact exceptOk_settlement settle aid (Frontend.batchPayment pending projects aid)
  · simp only [Frontend.handleBatchApprove, hlen, if_false]
    simp only [if_neg (by simp : ¬ (true = false))]
    rw [List.filter_map, List.length_map]
    congr 1
    apply List.filter_congr
    intro aid _
    rw [Function.comp_apply]
    rw [exceptOk_settlement settle aid (Frontend.batchPayment pending projects aid)]
  · intro id amt err hval
    simp [Frontend.handleApproveAssignment, hval]

/-- C3 witness: a singleton batch whose settlement completed. -/
theorem c3_success_only_on_settlement_witness :
    (Frontend.handleBatchApprove [2] [] [] true
          (Frontend.approveViaSettlement
            (fun _ => ⟨Frontend.SettlementStatus.completed, none⟩))).successCount =
        (([2] : List ℕ).filter
          (fun aid =>
            ((fun _ => (⟨Frontend.SettlementStatus.completed, none⟩ : Frontend.SettlementTxn))
                aid).status == Frontend.SettlementStatus.completed)).length ∧
      (Frontend.handleBatchApprove [2] [] [] true
          (Frontend.approveViaSettlement
            (fun _ => ⟨Frontend.SettlementStatus.completed, none⟩))).errorCount =
        (([2] : List ℕ).filter
          (fun aid =>
            !(((fun _ => (⟨Frontend.SettlementStatus.completed, none⟩ : Frontend.SettlementTxn))
                aid).status == Frontend.SettlementStatus.completed))).length ∧
      ∀ id amt err, WebValidation.validatePaymentAmount amt = none →
        Frontend.FrontendAct.setErrorMsg
            (match err.responseDataError with
             | some m => m
             | none => "Failed to approve assignment") ∈
          Frontend.handleApproveAssignment id amt (Except.error err) :=
  c3_success_only_on_settlement [2] [] []
    (fun _ => ⟨Frontend.SettlementStatus.completed, none⟩) (by decide)


/-- C4 (counterexample): the checksummed rendering
`0x5aAeb6...` and a distinct rendering with one letter's case flipped are
both mixed-case spellings of the same 40-hex-digit address and both are
accepted (null) by both copies of `validateWalletAddress`.  EIP-55
prescribes exactly one case pattern per address, so at most one of the
two can have a valid checksum; the other is a mixed-case address with an
invalid checksum accepted without any verification, refuting the claim's
"for mixed-case addresses the EIP-55 checksum is verified before
acceptance". -/
theorem c4_counterexample :
    ExtValidation.validateWalletAddress "0x5aAeb6053F3E94C9b9A09f33669435E7Ef1BeAed" = none ∧
      ExtValidation.validateWalletAddress "0x5AAeb6053F3E94C9b9A09f33669435E7Ef1BeAed" = none ∧
      WebValidation.validateWalletAddress "0x5AAeb6053F3E94C9b9A09f33669435E7Ef1BeAed" = none ∧
      ("0x5aAeb6053F3E94C9b9A09f33669435E7Ef1BeAed" : String) ≠
        "0x5AAeb6053F3E94C9b9A09f33669435E7Ef1BeAed" ∧
      ExtValidation.lowercaseHex "0x5aAeb6053F3E94C9b9A09f33669435E7Ef1BeAed" =
        ExtValidation.lowercaseHex "0x5AAeb6053F3E94C9b9A09f33669435E7Ef1BeAed" ∧
      ExtValidation.mixedCaseHex "0x5aAeb6053F3E94C9b9A09f33669435E7Ef1BeAed" = true ∧
      ExtValidation.mixedCaseHex "0x5AAeb6053F3E94C9b9A09f33669435E7Ef1BeAed" = true := by
  decide

/-- C4 (amended): both `validateWalletAddress` implementations accept a
string exactly when it matches `^0x[a-fA-F0-9]{40}$`; no EIP-55 checksum
verification is performed, so mixed-case addresses are accepted
regardless of their case pattern. -/
theorem c4_wallet_format (s : String) :
    (WebValidation.validateWalletAddress s = none ↔ ethAddrMatch s = true) ∧
      (ExtValidation.validateWalletAddress s = none ↔ ethAddrMatch s = true) := by
  constructor
  · unfold WebValidation.validateWalletAddress
    by_cases h0 : s = ""
    · subst h0
      simp
      decide
    · by_cases hm : ethAddrMatch s = true
      · simp [h0, hm]
      · simp [h0, hm]
  · unfold ExtValidation.validateWalletAddress
    by_cases hm : ethAddrMatch s = true
    · obtain ⟨hne, hpre, hlen⟩ := ethAddrMatch_spec s hm
      simp [hne, hpre, hlen, hm]
    · by_cases h0 : s = ""
      · subst h0
        simp
        decide
      · simp [h0, hm]
        intro h1
        split at h1
        · simp_all
        · split at h1 <;> simp_all

/-- C5: a claim attempt whose error response carries HTTP status 400 is
reported with the dedicated "task no longer available" message, and that
run shows no message starting with the generic "Failed to claim task". -/
theorem c5_claim_race_message (e : TaskPanel.ClaimErr) (h : e.responseStatus = some 400) :
    TaskPanel.handleClaimTask (Except.error e) =
        [TaskPanel.UiMsg.errorMsg
          "This task is no longer available. Please refresh and try another task."] ∧
      ∀ s, TaskPanel.UiMsg.errorMsg s ∈ TaskPanel.handleClaimTask (Except.error e) →
        jsStartsWith s "Failed to claim task" = false := by
  have hmsg : TaskPanel.handleClaimTask (Except.error e) =
      [TaskPanel.UiMsg.errorMsg
        "This task is no longer available. Please refresh and try another task."] := by
    simp [TaskPanel.handleClaimTask, TaskPanel.claimErrorMessage, h]
  refine ⟨hmsg, ?_⟩
  intro s hs
  rw [hmsg] at hs
  simp at hs
  subst hs
  decide

/-- C5 witness: a 400 response. -/
theorem c5_claim_race_message_witness :
    TaskPanel.handleClaimTask (Except.error ⟨some 400, "Request failed"⟩) =
        [TaskPanel.UiMsg.errorMsg
          "This task is no longer available. Please refresh and try another task."] ∧
      ∀ s, TaskPanel.UiMsg.errorMsg s ∈
          TaskPanel.handleClaimTask (Except.error ⟨some 400, "Request failed"⟩) →
        jsStartsWith s "Failed to claim task" = false :=
  c5_claim_race_message ⟨some 400, "Request failed"⟩ rfl

/-- C6: an assignment card offers the cancel control and the annotation
form exactly when the status is `assigned`, `accepted` or `in_progress`;
cards in `submitted`, `approved` or `rejected` offer neither. -/
theorem c6_card_controls (renderForm : Webview.WvAssignment → String)
    (a : Webview.WvAssignment) (hf : ∀ x, renderForm x ≠ "") :
    ((Webview.renderAssignmentCard renderForm a).cancelButton ≠ "" ↔
        a.status ∈ Webview.cancellableStatuses) ∧
      ((Webview.renderAssignmentCard renderForm a).annotationFormHtml ≠ "" ↔
        a.status ∈ Webview.cancellableStatuses) ∧
      ((a.status = "submitted" ∨ a.status = "approved" ∨ a.status = "rejected") →
        (Webview.renderAssignmentCard renderForm a).cancelButton = "" ∧
          (Webview.renderAssignmentCard renderForm a).annotationFormHtml = "") := by
  have hbtn : ("<button data-action=cancel-assignment data-assignment-id=" ++ toString a.id ++
      " class=secondary>Cancel Assignment</button>") ≠ "" := by
    intro hcontra
    have : ("<button data-action=cancel-assignment data-assignment-id=" ++ toString a.id ++
        " class=secondary>Cancel Assignment</button>").data = ("" : String).data := by
      rw [hcontra]
    simp [String.data_append] at this
  by_cases h1 : a.status = "assigned"
  · simp [Webview.renderAssignmentCard, Webview.cancellableStatuses, h1, hbtn, hf a]
  · by_cases h2 : a.status = "accepted"
    · simp [Webview.renderAssignmentCard, Webview.cancellableStatuses, h1, h2, hbtn, hf a]
    · by_cases h3 : a.status = "in_progress"
      · simp [Webview.renderAssignmentCard, Webview.cancellableStatuses, h1, h2, h3, hbtn, hf a]
      · simp [Webview.renderAssignmentCard, Webview.cancellableStatuses, h1, h2, h3]

/-- C6 witness: the theorem applied to an `assigned` card and to a
`submitted` card, with a non-empty form renderer. -/
theorem c6_card_controls_witness :
    (((Webview.renderAssignmentCard (fun _ => "<div>form</div>") ⟨3, "assigned", none⟩).cancelButton ≠ "" ↔
        ("assigned" : String) ∈ Webview.cancellableStatuses) ∧
      ((Webview.renderAssignmentCard (fun _ => "<div>form</div>") ⟨3, "assigned", none⟩).annotationFormHtml ≠ "" ↔
        ("assigned" : String) ∈ Webview.cancellableStatuses) ∧
      ((("assigned" : String) = "submitted" ∨ ("assigned" : String) = "approved" ∨
          ("assigned" : String) = "rejected") →
        (Webview.renderAssignmentCard (fun _ => "<div>form</div>") ⟨3, "assigned", none⟩).cancelButton = "" ∧
          (Webview.renderAssignmentCard (fun _ => "<div>form</div>") ⟨3, "assigned", none⟩).annotationFormHtml = "")) :=
  c6_card_controls (fun _ => "<div>form</div>") ⟨3, "assigned", none⟩
    (fun _ => by
      show ("<div>form</div>" : String) ≠ ""
      decide)


set_option maxRecDepth 10000 in
/-- C7 (counterexample): with three selected assignments priced
`"0.10"`, the confirmation total computed by `handleBatchApprove` is the
binary64 value `5404319552844596 / 2^54` (`0.30000000000000004`), not the
exact decimal `0.30`, and the per-assignment amount sent to the approve
endpoint is `3602879701896397 / 2^55`, not the exact decimal `0.10` —
the amounts are floating point, not fixed-point decimal. -/
theorem c7_counterexample :
    Frontend.batchTotal [1, 2, 3]
        [⟨1, some ⟨some 7⟩, none⟩, ⟨2, some ⟨some 7⟩, none⟩, ⟨3, some ⟨some 7⟩, none⟩]
        [⟨7, some "0.10"⟩] = some (Rat.divInt 5404319552844596 (2 ^ 54)) ∧
      Rat.divInt 5404319552844596 (2 ^ 54) ≠ Rat.divInt 3 10 ∧
      Frontend.batchPayment
        [⟨1, some ⟨some 7⟩, none⟩, ⟨2, some ⟨some 7⟩, none⟩, ⟨3, some ⟨some 7⟩, none⟩]
        [⟨7, some "0.10"⟩] 1 = some (Rat.divInt 3602879701896397 (2 ^ 55)) ∧
      Rat.divInt 3602879701896397 (2 ^ 55) ≠ Rat.divInt 1 10 := by
  decide

set_option maxRecDepth 10000 in
/-- C7 (amended): payment amounts in the dashboard are IEEE-754 binary64
doubles: each per-assignment amount is `parseFloat` of the price string
(rounded to binary64), the batch total is the rounded running sum of
those doubles, and that running sum can drift from the exact decimal sum
(three $0.10 assignments total `0.30000000000000004`). -/
theorem c7_double_rounding :
    Frontend.batchPayment
        [⟨1, some ⟨some 7⟩, none⟩, ⟨2, some ⟨some 7⟩, none⟩, ⟨3, some ⟨some 7⟩, none⟩]
        [⟨7, some "0.10"⟩] 1 = jsParseFloat "0.10" ∧
      jsParseFloat "0.10" = some (roundF64 (Rat.divInt 1 10)) ∧
      roundF64 (Rat.divInt 1 10) ≠ Rat.divInt 1 10 ∧
      Frontend.batchTotal [1, 2, 3]
          [⟨1, some ⟨some 7⟩, none⟩, ⟨2, some ⟨some 7⟩, none⟩, ⟨3, some ⟨some 7⟩, none⟩]
          [⟨7, some "0.10"⟩] =
        some (jsAdd (jsAdd (jsAdd 0 (roundF64 (Rat.divInt 1 10))) (roundF64 (Rat.divInt 1 10)))
          (roundF64 (Rat.divInt 1 10))) ∧
      jsAdd (jsAdd (jsAdd 0 (roundF64 (Rat.divInt 1 10))) (roundF64 (Rat.divInt 1 10)))
          (roundF64 (Rat.divInt 1 10)) ≠ Rat.divInt 3 10 := by
  decide

/-- C8: while the `isClaimingTask` flag is set, any sequence of further
`claimTask` / `claimTaskFromProject` invocations (no timer expiry yet)
posts no claim message and leaves the guard state unchanged; a claim from
the idle state sets the flag and posts exactly its claim message. -/
theorem c8_claim_guard (s : Webview.GuardState) (t p : ℕ) (evs : List Webview.GuardEvent)
    (hflag : s.isClaimingTask = true) (hnt : Webview.GuardEvent.timerFire ∉ evs) :
    (Webview.guardRun s evs).2 = [] ∧ (Webview.guardRun s evs).1 = s ∧
      (Webview.claimTask ⟨false⟩ t).1.isClaimingTask = true ∧
      (Webview.claimTask ⟨false⟩ t).2 = [Webview.ClaimMsg.claimTaskMsg t] ∧
      (Webview.claimTaskFromProject ⟨false⟩ p).1.isClaimingTask = true := by
  rw [guardRun_pending evs s hflag hnt]
  simp [Webview.claimTask, Webview.claimTaskFromProject]

/-- C8 witness: two invocations while a claim is pending. -/
theorem c8_claim_guard_witness :
    (Webview.guardRun ⟨true⟩
          [Webview.GuardEvent.invokeClaim 5, Webview.GuardEvent.invokeClaimFromProject 6]).2 =
        [] ∧
      (Webview.guardRun ⟨true⟩
          [Webview.GuardEvent.invokeClaim 5, Webview.GuardEvent.invokeClaimFromProject 6]).1 =
        ⟨true⟩ ∧
      (Webview.claimTask ⟨false⟩ 1).1.isClaimingTask = true ∧
      (Webview.claimTask ⟨false⟩ 1).2 = [Webview.ClaimMsg.claimTaskMsg 1] ∧
      (Webview.claimTaskFromProject ⟨false⟩ 2).1.isClaimingTask = true :=
  c8_claim_guard ⟨true⟩ 1 2
    [Webview.GuardEvent.invokeClaim 5, Webview.GuardEvent.invokeClaimFromProject 6] rfl
    (by decide)

/-- C9: if the login response's user is not an annotator, `login` throws
before any write, the storage is unchanged, and (when no token was stored
before) `isAuthenticated` stays false; conversely a successful `login`
implies the stored user is an annotator, with token and user written. -/
theorem c9_login_atomic (st : ExtAuth.StoredState)
    (resp : Except ExtAuth.LoginErr (String × ExtAuth.User)) (tok : String)
    (user : ExtAuth.User) :
    (resp = Except.ok (tok, user) → user.user_type ≠ "annotator" →
      (∃ msg, ExtAuth.login st resp = Except.error msg) ∧
        ExtAuth.storageAfterLogin st resp = st ∧
        (st.authToken = none →
          ExtAuth.isAuthenticated (ExtAuth.storageAfterLogin st resp) = false)) ∧
      ∀ st2 u, ExtAuth.login st resp = Except.ok (st2, u) →
        u.user_type = "annotator" ∧ st2.authToken.isSome = true ∧ st2.user = some u := by
  constructor
  · intro hresp htype
    subst hresp
    have hlog : ExtAuth.login st (Except.ok (tok, user)) =
        Except.error
          "Only annotators can use this extension. Please use the web interface for researchers." := by
      simp [ExtAuth.login, htype]
    refine ⟨⟨_, hlog⟩, ?_, ?_⟩
    · simp [ExtAuth.storageAfterLogin, hlog]
    · intro hnone
      simp [ExtAuth.storageAfterLogin, hlog, ExtAuth.isAuthenticated, hnone]
  · intro st2 u hok
    cases resp with
    | error e => simp [ExtAuth.login] at hok
    | ok tu =>
      by_cases htype : tu.2.user_type = "annotator"
      · simp [ExtAuth.login, htype] at hok
        obtain ⟨h1, h2⟩ := hok
        refine ⟨?_, ?_, ?_⟩ <;> simp [← h1, ← h2, htype]
      · simp [ExtAuth.login, htype] at hok

/-- C9 witness: a researcher login response against empty storage. -/
theorem c9_login_atomic_witness :
    (∃ msg, ExtAuth.login ⟨none, none⟩
        (Except.ok ("tok123", ⟨"alice", "researcher"⟩)) = Except.error msg) ∧
      ExtAuth.storageAfterLogin ⟨none, none⟩
          (Except.ok ("tok123", ⟨"alice", "researcher"⟩)) = ⟨none, none⟩ ∧
      ExtAuth.isAuthenticated
          (ExtAuth.storageAfterLogin ⟨none, none⟩
            (Except.ok ("tok123", ⟨"alice", "researcher"⟩))) = false := by
  have h := (c9_login_atomic ⟨none, none⟩
      (Except.ok ("tok123", ⟨"alice", "researcher"⟩)) "tok123" ⟨"alice", "researcher"⟩).1
    rfl (by decide)
  exact ⟨h.1, h.2.1, h.2.2 rfl⟩

/-- C10: for a batch over selected ids all present among the pending
assignments, every selected assignment is approved with the amount given
by the owning project's `price_per_task` (parsed) or the 5.00 USDC
default when the project or its price is unknown; `validatePaymentAmount`
is never invoked during the run; and the confirmation total shown
beforehand is exactly the (binary64) sum of these per-assignment
amounts. -/
theorem c10_batch_default_amounts (selected : List ℕ)
    (pending : List Frontend.Assignment) (projects : List Frontend.Project)
    (api : ℕ → JsNum → Except Frontend.ApiErr Unit)
    (hsel : selected ≠ [])
    (hfound : ∀ aid ∈ selected, (pending.find? (fun a => a.id == aid)).isSome = true) :
    (∀ aid ∈ selected,
        Frontend.FrontendAct.approveCall aid (Frontend.batchPayment pending projects aid) ∈
          (Frontend.handleBatchApprove selected pending projects true api).actions ∧
        Frontend.pricePerTaskRule pending projects aid
          (Frontend.batchPayment pending projects aid)) ∧
      (Frontend.handleBatchApprove selected pending projects true api).actions.all
          (fun act => !(Frontend.isValidateB act)) = true ∧
      Frontend.FrontendAct.confirmTotal selected.length
          (selected.foldl
            (fun t aid => nanAdd t (Frontend.batchPayment pending projects aid)) (some 0)) ∈
        (Frontend.handleBatchApprove selected pending projects true api).actions := by
  have hlen : ¬ selected.length = 0 := by
    simpa [List.length_eq_zero] using hsel
  have hact : (Frontend.handleBatchApprove selected pending projects true api).actions =
      [Frontend.FrontendAct.confirmTotal selected.length
          (Frontend.batchTotal selected pending projects),
        Frontend.FrontendAct.setLoading true] ++
        (selected.map (fun aid => (aid, Frontend.batchPayment pending projects aid,
          api aid (Frontend.batchPayment pending projects aid)))).map
          (fun r => Frontend.FrontendAct.approveCall r.1 r.2.1) ++
        [Frontend.FrontendAct.setLoading false, Frontend.FrontendAct.reloadAssignments,
          Frontend.FrontendAct.alertMsg
            (if ((selected.map (fun aid => (aid, Frontend.batchPayment pending projects aid,
                  api aid (Frontend.batchPayment pending projects aid)))).filter
                    (fun r => !(Frontend.exceptOkB r.2.2))).length = 0 then
              "Successfully approved " ++
                toString ((selected.map (fun aid =>
                  (aid, Frontend.batchPayment pending projects aid,
                    api aid (Frontend.batchPayment pending projects aid)))).filter
                      (fun r => Frontend.exceptOkB r.2.2)).length ++ " assignment(s)!"
             else
              "Approved " ++
                toString ((selected.map (fun aid =>
                  (aid, Frontend.batchPayment pending projects aid,
                    api aid (Frontend.batchPayment pending projects aid)))).filter
                      (fun r => Frontend.exceptOkB r.2.2)).length ++
                " assignment(s). Failed: " ++
                toString ((selected.map (fun aid =>
                  (aid, Frontend.batchPayment pending projects aid,
                    api aid (Frontend.batchPayment pending projects aid)))).filter
                      (fun r => !(Frontend.exceptOkB r.2.2))).length)] := by
    simp only [Frontend.handleBatchApprove, hlen, if_false]
    simp only [if_neg (by simp : ¬ (true = false))]
  refine ⟨?_, ?_, ?_⟩
  · intro aid hmem
    refine ⟨?_, batchPayment_rule pending projects aid⟩
    rw [hact]
    refine List.mem_append_left _ (List.mem_append_right _ ?_)
    refine List.mem_map.mpr ⟨(aid, Frontend.batchPayment pending projects aid,
      api aid (Frontend.batchPayment pending projects aid)), ?_, rfl⟩
    exact List.mem_map.mpr ⟨aid, hmem, rfl⟩
  · rw [hact]
    simp only [List.all_append, List.all_cons, List.all_nil, List.all_map]
    simp [Frontend.isValidateB, List.all_eq_true]
  · rw [hact, ← batchTotal_eq_fold selected pending projects hfound]
    exact List.mem_append_left _ (List.mem_append_left _ (List.mem_cons_self _ _))

/-- C10 witness: one selected assignment in a project priced 2.50. -/
theorem c10_batch_default_amounts_witness :
    (∀ aid ∈ ([1] : List ℕ),
        Frontend.FrontendAct.approveCall aid
            (Frontend.batchPayment [⟨1, some ⟨some 7⟩, none⟩] [⟨7, some "2.50"⟩] aid) ∈
          (Frontend.handleBatchApprove [1] [⟨1, some ⟨some 7⟩, none⟩] [⟨7, some "2.50"⟩] true
            (fun _ _ => Except.ok ())).actions ∧
        Frontend.pricePerTaskRule [⟨1, some ⟨some 7⟩, none⟩] [⟨7, some "2.50"⟩] aid
          (Frontend.batchPayment [⟨1, some ⟨some 7⟩, none⟩] [⟨7, some "2.50"⟩] aid)) ∧
      (Frontend.handleBatchApprove [1] [⟨1, some ⟨some 7⟩, none⟩] [⟨7, some "2.50"⟩] true
          (fun _ _ => Except.ok ())).actions.all
          (fun act => !(Frontend.isValidateB act)) = true ∧
      Frontend.FrontendAct.confirmTotal ([1] : List ℕ).length
          (([1] : List ℕ).foldl
            (fun t aid =>
              nanAdd t (Frontend.batchPayment [⟨1, some ⟨some 7⟩, none⟩] [⟨7, some "2.50"⟩] aid))
            (some 0)) ∈
        (Frontend.handleBatchApprove [1] [⟨1, some ⟨some 7⟩, none⟩] [⟨7, some "2.50"⟩] true
          (fun _ _ => Except.ok ())).actions :=
  c10_batch_default_amounts [1] [⟨1, some ⟨some 7⟩, none⟩] [⟨7, some "2.50"⟩]
    (fun _ _ => Except.ok ()) (by decide) (by decide)

end Viberate
